import Mathlib

/-!
# Shallow embedding of `core/commands/storage/upload/upload/upload_shard.go`

`UploadShard` performs a synchronous payment preflight (oracle rate lookup,
per-shard pay computation, balance check), then launches one negotiation
goroutine per shard (each wrapped in `backoff.Retry`) and one session
completion watcher goroutine, and returns `nil`.

The embedding models each external interaction (context cancellation, host
provider, peer decode, remote P2P calls, signing, channel/ack scheduling) as a
field of an environment record, and the per-attempt body of `backoff.Retry`
as a pure step function from that environment to a result (`Option String`,
`none` meaning the Go `return nil`) together with an effect trace: error
events raised on the session, contract ids registered/removed in
`ShardErrChanMap`, remote host calls issued, channels created (with their Go
capacity) and senders left blocked on a channel send.
-/

namespace UploadShardSpec

/-- Errors are modelled as their message strings. -/
abbrev Err := String

/-- `common.Address` of a payment token, modelled as an opaque numeric id. -/
abbrev TokenAddr := Nat

/-- A contract id as minted by `helper.NewContractID(rss.SsId)`: an opaque
identifier. We keep its derivation inputs visible as a pair (session id,
per-attempt fresh component) rather than an opaque rendered string. -/
abbrev ContractId := String × Nat

/-- Modelled from the spec: `helper.NewContractID` is not under `src/` (only
its call site is). The spec describes the result as a globally unique
identifier; the call site `helper.NewContractID(rss.SsId)` passes only the
session id, so the id is modelled as the session id paired with a fresh
per-attempt component (the uniqueness source, e.g. a UUID), and nothing else. -/
def newContractID (ssId : String) (fresh : Nat) : ContractId := (ssId, fresh)

/-- Outcome of the 30-second `select` on the per-attempt channel `cb`:
either a value is received on `cb` (an inbound ack result, or the error the
push goroutine sent after a failed `/storage/upload/init` call), or the
30-second tick fires first. `received e` models the `case err = <-cb` branch
consuming the pending send. -/
inductive AckOutcome where
  | received (e : Option Err)
  | timeout
deriving DecidableEq, Repr

/-- One negotiation attempt's view of its external collaborators.

`supportTokensResp` merges the `/storage/upload/supporttokens` P2P call and
the subsequent `json.Unmarshal` into one `Except`: in the source both error
paths behave identically (`return err`), and the `.ok` payload is the decoded
label-to-token-address mapping. `pushFailed` is `some e` when the
`/storage/upload/init` call in the push goroutine fails with `e` (the source
then does `cb <- err`). -/
structure AttemptEnv where
  ctxDone : Bool
  nextHost : Except Err String
  decodePeer : Except Err String
  supportTokensResp : Except Err (List (String × TokenAddr))
  signResult : Except Err (List Nat)
  pushFailed : Option Err
  ack : AckOutcome
deriving Repr

/-- Observable side effects of negotiation code: session error events raised
(`rss.To(RssToErrorEvent, ...)`, recorded by message), contract ids
registered in / removed from `ShardErrChanMap`, remote calls issued to hosts,
capacities of the per-attempt result channels created (`make(chan error)` has
capacity 0), and the number of goroutines left blocked forever on a channel
send. -/
structure Effects where
  events : List Err
  registered : List ContractId
  removed : List ContractId
  hostCalls : Nat
  cbCaps : List Nat
  blockedSenders : Nat
deriving DecidableEq, Repr

def Effects.empty : Effects := ⟨[], [], [], 0, [], 0⟩

def Effects.app (a b : Effects) : Effects :=
  ⟨a.events ++ b.events, a.registered ++ b.registered, a.removed ++ b.removed,
   a.hostCalls + b.hostCalls, a.cbCaps ++ b.cbCaps,
   a.blockedSenders + b.blockedSenders⟩

/-- One iteration of the closure passed to `backoff.Retry` inside
`UploadShard`, for the shard with index `shardIndex` of session `ssId`,
paying with `token`. `fresh` is the unique component of the contract id
minted by this attempt. Returns the Go closure's `error` result (`none` for
`return nil`) together with the attempt's effect trace.

Control flow mirrors the source: cancellation check; `hp.NextValidHost()`
(failure raises an error event and returns `nil`); `peer.Decode` (failure
returns the error); the `supporttokens` call and unmarshal (failure returns
the error; this is the first host contact); the token membership scan
(`return nil` when the chosen token is absent, with no event); contract id
registration `ShardErrChanMap.Set(contractId, cb)` with `cb` of capacity 0;
signing (failure returns the error, entry not removed); the push goroutine
plus the 30-second `select`: on `<-cb` the entry is removed and the received
value returned, on the tick `errors.New("host timeout")` is returned with no
removal — and if the push had failed, its `cb <- err` sender stays blocked
forever since `cb` is unbuffered and the only receiver is gone. -/
def attemptStep (ssId : String) (token : TokenAddr) (_shardIndex : Nat)
    (fresh : Nat) (env : AttemptEnv) : Option Err × Effects :=
  if env.ctxDone then
    (none, Effects.empty)
  else
    match env.nextHost with
    | .error e => (none, { Effects.empty with events := [e] })
    | .ok _host =>
      match env.decodePeer with
      | .error e => (some e, Effects.empty)
      | .ok _hostPid =>
        match env.supportTokensResp with
        | .error e => (some e, { Effects.empty with hostCalls := 1 })
        | .ok mpToken =>
          if mpToken.any (fun kv => kv.2 == token) then
            let contractId := newContractID ssId fresh
            match env.signResult with
            | .error e =>
                (some e,
                 { Effects.empty with
                    registered := [contractId], hostCalls := 1, cbCaps := [0] })
            | .ok _guardContractBytes =>
              match env.ack with
              | .received e =>
                  (e,
                   { Effects.empty with
                      registered := [contractId], removed := [contractId],
                      hostCalls := 2, cbCaps := [0] })
              | .timeout =>
                  (some "host timeout",
                   { Effects.empty with
                      registered := [contractId], hostCalls := 2, cbCaps := [0],
                      blockedSenders := if env.pushFailed.isSome then 1 else 0 })
          else
            (none, { Effects.empty with hostCalls := 1 })

/-- `backoff.Retry` over the sequence of attempts its policy permits before
the max elapsed time is exceeded, each with the fresh contract id component
it will mint. Stops at the first attempt returning `nil`; if every permitted
attempt errors, the result is the last attempt's error (what `backoff.Retry`
returns on exhaustion). Effects of all executed attempts accumulate. -/
def retryLoop (ssId : String) (token : TokenAddr) (shardIndex : Nat) :
    List (Nat × AttemptEnv) → Option Err × Effects
  | [] => (none, Effects.empty)
  | [(fresh, env)] => attemptStep ssId token shardIndex fresh env
  | (fresh, env) :: b :: rest =>
    match attemptStep ssId token shardIndex fresh env with
    | (none, effs) => (none, effs)
    | (some _, effs) =>
      let r := retryLoop ssId token shardIndex (b :: rest)
      (r.1, effs.app r.2)

/-- Modelled from the spec: `helper.HandleShardBo` is not under `src/`; it is
the configured exponential backoff policy, and only the rendering of its
`MaxElapsedTime` (as printed by Go's `Duration.String()`) reaches the code
under `src/`. -/
def handleShardBoMaxElapsedTime : String := "24h0m0s"

/-- The message of the error event raised on backoff exhaustion:
`"timeout: failed to setup contract in " + helper.HandleShardBo.MaxElapsedTime.String()`. -/
def shardTimeoutMsg : Err :=
  "timeout: failed to setup contract in " ++ handleShardBoMaxElapsedTime

/-- The whole per-shard goroutine: run the backoff loop; if it returns an
error, raise exactly one session error event carrying `shardTimeoutMsg`. -/
def shardTask (ssId : String) (token : TokenAddr) (shardIndex : Nat)
    (attempts : List (Nat × AttemptEnv)) : Effects :=
  match retryLoop ssId token shardIndex attempts with
  | (none, effs) => effs
  | (some _, effs) => effs.app { Effects.empty with events := [shardTimeoutMsg] }

/-! ## The session completion watcher

The goroutine at the end of `UploadShard` ticks every 5 seconds. On each
tick it calls `rss.GetCompleteShardsNum()`; a query error skips the tick
(`continue`). If `completeNum == numShards` it calls `Submit` (raising an
error event if `Submit` fails) and returns; else if `errorNum > 0` it raises
an error event (`"there are some error shards"`) and returns. If the session
context is done it returns with no event. Each loop iteration is driven by
one observation. -/

/-- One observation driving one iteration of the watcher's `select`:
either the 5-second tick fired (with the result of `GetCompleteShardsNum`,
`.error` when the query failed) or `rss.Ctx` was done. -/
inductive WatcherObs where
  | tick (q : Except Err (Nat × Nat))
  | ctxDone
deriving Repr

/-- How a watcher run ended: `Submit` was invoked (finalization),
the error-shards branch fired (abort), the context-done branch fired
(cancelled), or the observation sequence ran out with the loop still going. -/
inductive WatcherEnd where
  | finalized
  | aborted
  | cancelled
  | running
deriving DecidableEq, Repr

/-- Result of a watcher run: how it ended, the error events it raised, and
how many times it invoked `Submit`. -/
structure WatcherOut where
  ended : WatcherEnd
  events : List Err
  submits : Nat
deriving DecidableEq, Repr

/-- The watcher goroutine as a function of the sequence of observations it
makes, for a session of `numShards` shards whose `Submit` call would return
`submitRes` (`none` for success). -/
def watcherRun (numShards : Nat) (submitRes : Option Err) :
    List WatcherObs → WatcherOut
  | [] => ⟨.running, [], 0⟩
  | .ctxDone :: _ => ⟨.cancelled, [], 0⟩
  | .tick (.error _) :: rest => watcherRun numShards submitRes rest
  | .tick (.ok (completeNum, errorNum)) :: rest =>
    if completeNum = numShards then
      ⟨.finalized, (match submitRes with | some m => [m] | none => []), 1⟩
    else if errorNum > 0 then
      ⟨.aborted, ["there are some error shards"], 0⟩
    else
      watcherRun numShards submitRes rest

/-! ## `UploadShard` itself -/

/-- The synchronous preflight's view of its collaborators:
`chain.SettleObject.OracleService.CurrentRate(token)`, `helper.TotalPay`
(not under `src/`; its result for the given size/price/length/rate is taken
as an environment value), and `checkAvailableBalance` (`some e` = failure
for the amount it is given). -/
structure PreflightEnv where
  currentRate : Except Err Int
  totalPay : Except Err Int
  checkBalance : Int → Option Err
deriving Inhabited

/-- Two's-complement wraparound of Go `int64` arithmetic. -/
def int64wrap (x : Int) : Int := (x + 2 ^ 63) % 2 ^ 64 - 2 ^ 63

/-- Everything observable about one `UploadShard` call: its return value
(`none` = `nil`), the amount handed to `checkAvailableBalance` (`none` if
never reached), the shard indices for which negotiation goroutines were
launched, whether the watcher goroutine was launched, the accumulated
effects of the launched shard goroutines, and the watcher run's outcome. -/
structure UploadResult where
  ret : Option Err
  checkedTotal : Option Int
  launchedShards : List Nat
  watcherLaunched : Bool
  shardEffects : Effects
  watcher : Option WatcherOut
deriving Repr

/-- `UploadShard`. Preflight: rate lookup, `TotalPay`, then
`expectTotalPay := expectOnePay * int64(len(rss.ShardHashes))` (Go `int64`
multiplication wraps) checked against the balance; any failure returns that
error with nothing launched. On success, one goroutine per entry of
`rss.ShardHashes` is launched (with `shardIndexes[index]` as shard index) and
the watcher goroutine is launched, and `UploadShard` returns `nil`.
`attemptss` gives each shard goroutine its attempt environments (paired with
the contract-id fresh components), `watcherObs`/`submitRes` drive the
watcher. -/
def uploadShard (pf : PreflightEnv) (ssId : String) (token : TokenAddr)
    (shardHashes : List String) (shardIndexes : List Nat)
    (attemptss : List (List (Nat × AttemptEnv)))
    (watcherObs : List WatcherObs) (submitRes : Option Err) : UploadResult :=
  match pf.currentRate with
  | .error e => ⟨some e, none, [], false, Effects.empty, none⟩
  | .ok _rate =>
    match pf.totalPay with
    | .error e => ⟨some e, none, [], false, Effects.empty, none⟩
    | .ok expectOnePay =>
      let expectTotalPay := int64wrap (expectOnePay * (shardHashes.length : Int))
      match pf.checkBalance expectTotalPay with
      | some e => ⟨some e, some expectTotalPay, [], false, Effects.empty, none⟩
      | none =>
        let launched := (shardIndexes.zip shardHashes).map Prod.fst
        let effs := (launched.zip attemptss).foldl
          (fun acc p => acc.app (shardTask ssId token p.1 p.2)) Effects.empty
        ⟨none, some expectTotalPay, launched, true, effs,
         some (watcherRun shardHashes.length submitRes watcherObs)⟩

/-! ## The contract registry delivery path -/

/-- Modelled from the spec: the inbound-RPC delivery path of
`ShardErrChanMap` is not under `src/` (only `Set` and `Remove` call sites
are). The spec describes it as: look up the channel by contract id and send
the result; delivering to an id with no registered channel is a no-op. The
registry is the list of live ids; the result says whether a send happened
and leaves the registry unchanged when the id is absent. -/
def deliverIfPresent (registry : List ContractId) (id : ContractId) :
    List ContractId × Bool :=
  if registry.contains id then (registry, true) else (registry, false)

/-- A send on a Go channel of capacity `cap` blocks the sender when the
buffer is full and no receiver is waiting. The per-attempt channel
`cb := make(chan error)` has capacity 0, so a send blocks unless a receiver
is currently waiting. -/
def sendBlocks (cap : Nat) (buffered : Nat) (receiverWaiting : Bool) : Bool :=
  !receiverWaiting && decide (buffered ≥ cap)

/-! ## Concrete attempt environments used by counterexamples and witnesses -/

/-- All stages succeed up to the 30-second ack wait, which times out;
the host supports token 7. -/
def envAckTimeout : AttemptEnv :=
  ⟨false, .ok "16Uiu2HAmHost", .ok "hostPid", .ok [("WBTT", 7)], .ok [1], none, .timeout⟩

/-- The host responds to `supporttokens` but its map does not contain
token 7 (it only offers token 8). -/
def envTokenMissing : AttemptEnv :=
  ⟨false, .ok "16Uiu2HAmHost", .ok "hostPid", .ok [("WBTT", 8)], .ok [1], none, .timeout⟩

/-- The `/storage/upload/init` push fails (its error is sent on `cb`) but
the 30-second wait times out before anything is received. -/
def envPushFailTimeout : AttemptEnv :=
  ⟨false, .ok "16Uiu2HAmHost", .ok "hostPid", .ok [("WBTT", 7)], .ok [1],
   some "connection refused", .timeout⟩

/-- The ack arrives on the channel with a `nil` result (success). -/
def envAckOk : AttemptEnv :=
  ⟨false, .ok "16Uiu2HAmHost", .ok "hostPid", .ok [("WBTT", 7)], .ok [1], none,
   .received none⟩

/-- The session context is already done when the attempt starts. -/
def envCancelled : AttemptEnv :=
  ⟨true, .error "unused", .error "unused", .error "unused", .error "unused",
   none, .timeout⟩

/-- `peer.Decode` fails on the host identifier returned by the provider. -/
def envDecodeFail : AttemptEnv :=
  ⟨false, .ok "not-a-peer-id", .error "failed to parse peer ID", .ok [],
   .ok [1], none, .timeout⟩

/-- A preflight environment whose rate lookup fails. -/
def pfRateFail : PreflightEnv :=
  ⟨.error "rate oracle unreachable", .ok 3, fun _ => none⟩

/-- A preflight environment in which everything succeeds (per-shard pay 3,
unlimited balance). -/
def pfOk : PreflightEnv := ⟨.ok 2, .ok 3, fun _ => none⟩

/-! ## Helper lemmas -/

theorem Effects.empty_app (b : Effects) : Effects.empty.app b = b := by
  cases b; simp [Effects.app, Effects.empty]

theorem int64wrap_eq_of_range (x : Int) (h : |x| < 2 ^ 63) : int64wrap x = x := by
  unfold int64wrap
  have h1 : (0 : Int) ≤ x + 2 ^ 63 := by
    rcases abs_lt.mp h with ⟨hl, _⟩; omega
  have h2 : x + 2 ^ 63 < 2 ^ 64 := by
    rcases abs_lt.mp h with ⟨_, hr⟩
    have : (2 : Int) ^ 64 = 2 ^ 63 + 2 ^ 63 := by norm_num
    omega
  rw [Int.emod_eq_of_lt h1 h2]; ring

theorem watcherRun_submits_bound (N : Nat) (sres : Option Err)
    (obs : List WatcherObs) :
    (watcherRun N sres obs).submits ≤ 1
    ∧ ((watcherRun N sres obs).ended = .finalized
        ↔ (watcherRun N sres obs).submits = 1) := by
  induction obs with
  | nil => simp [watcherRun]
  | cons o rest ih =>
    cases o with
    | ctxDone => simp [watcherRun]
    | tick q =>
      cases q with
      | error m => simpa [watcherRun] using ih
      | ok p =>
        obtain ⟨c, e⟩ := p
        by_cases hc : c = N
        · simp [watcherRun, hc]
        · by_cases he : e > 0
          · simp [watcherRun, hc, he]
          · simpa [watcherRun, hc, he] using ih

/-! ## Claim theorems -/

/-- C1: a failure of the rate lookup, of the per-shard pay computation, or
of the balance check makes `UploadShard` return that error with no shard
goroutine launched, no watcher launched, and no effects (no host contacted,
no registry entry, no event): no negotiation state is created. Whenever the
balance check is reached, the checked amount is the per-shard pay times the
number of entries of `ShardHashes` (as Go `int64` arithmetic, which agrees
with the exact product whenever that product fits in an `int64`). -/
theorem uploadShard_preflight_gate
    (pf : PreflightEnv) (ssId : String) (token : TokenAddr)
    (shardHashes : List String) (shardIndexes : List Nat)
    (attemptss : List (List (Nat × AttemptEnv)))
    (watcherObs : List WatcherObs) (submitRes : Option Err) :
    (∀ e, pf.currentRate = .error e →
      uploadShard pf ssId token shardHashes shardIndexes attemptss watcherObs
          submitRes =
        ⟨some e, none, [], false, Effects.empty, none⟩)
  ∧ (∀ rate e, pf.currentRate = .ok rate → pf.totalPay = .error e →
      uploadShard pf ssId token shardHashes shardIndexes attemptss watcherObs
          submitRes =
        ⟨some e, none, [], false, Effects.empty, none⟩)
  ∧ (∀ rate onePay e, pf.currentRate = .ok rate → pf.totalPay = .ok onePay →
      pf.checkBalance (int64wrap (onePay * (shardHashes.length : Int))) =
        some e →
      uploadShard pf ssId token shardHashes shardIndexes attemptss watcherObs
          submitRes =
        ⟨some e, some (int64wrap (onePay * (shardHashes.length : Int))), [],
         false, Effects.empty, none⟩)
  ∧ (∀ rate onePay, pf.currentRate = .ok rate → pf.totalPay = .ok onePay →
      (uploadShard pf ssId token shardHashes shardIndexes attemptss watcherObs
          submitRes).checkedTotal =
        some (int64wrap (onePay * (shardHashes.length : Int))))
  ∧ (∀ onePay : Int, |onePay * (shardHashes.length : Int)| < 2 ^ 63 →
      int64wrap (onePay * (shardHashes.length : Int)) =
        onePay * (shardHashes.length : Int)) := by
  refine ⟨?_, ?_, ?_, ?_, ?_⟩
  · intro e he; simp [uploadShard, he]
  · intro rate e hr ht; simp [uploadShard, hr, ht]
  · intro rate onePay e hr ht hb; simp [uploadShard, hr, ht, hb]
  · intro rate onePay hr ht
    cases hb : pf.checkBalance (int64wrap (onePay * (shardHashes.length : Int)))
      with
    | none => simp [uploadShard, hr, ht, hb]
    | some e => simp [uploadShard, hr, ht, hb]
  · intro onePay h; exact int64wrap_eq_of_range _ h

/-- C1 witness: at a concrete failing rate lookup, `UploadShard` returns the
oracle error and launches nothing; and 3 * 2 fits in `int64`. -/
theorem uploadShard_preflight_gate_witness :
    uploadShard pfRateFail "ss" 7 ["h1", "h2"] [0, 1] [] [] none =
      ⟨some "rate oracle unreachable", none, [], false, Effects.empty, none⟩
    ∧ int64wrap (3 * (([("h1" : String), "h2"]).length : Int)) =
        3 * (([("h1" : String), "h2"]).length : Int) := by
  refine ⟨?_, ?_⟩
  · exact (uploadShard_preflight_gate pfRateFail "ss" 7 ["h1", "h2"] [0, 1]
      [] [] none).1 "rate oracle unreachable" rfl
  · exact (uploadShard_preflight_gate pfRateFail "ss" 7 ["h1", "h2"] [0, 1]
      [] [] none).2.2.2.2 3 (by norm_num)

/-- C9: once the preflight (rate lookup, per-shard pay computation, balance
check) succeeds, `UploadShard` returns `nil`, having launched one goroutine
per shard and the watcher goroutine — and its return value is `nil` for
every possible behaviour of the shard negotiations (`attemptss`) and of the
watcher (`watcherObs`, `submitRes`): post-preflight failures never reach the
return value. -/
theorem uploadShard_ret_independent_of_negotiation
    (pf : PreflightEnv) (ssId : String) (token : TokenAddr)
    (shardHashes : List String) (shardIndexes : List Nat)
    (rate onePay : Int)
    (hr : pf.currentRate = .ok rate) (ht : pf.totalPay = .ok onePay)
    (hb : pf.checkBalance (int64wrap (onePay * (shardHashes.length : Int))) =
      none) :
    ∀ (attemptss : List (List (Nat × AttemptEnv)))
      (watcherObs : List WatcherObs) (submitRes : Option Err),
      (uploadShard pf ssId token shardHashes shardIndexes attemptss watcherObs
          submitRes).ret = none
    ∧ (uploadShard pf ssId token shardHashes shardIndexes attemptss watcherObs
          submitRes).launchedShards =
        (shardIndexes.zip shardHashes).map Prod.fst
    ∧ (uploadShard pf ssId token shardHashes shardIndexes attemptss watcherObs
          submitRes).watcherLaunched = true := by
  intro attemptss watcherObs submitRes
  refine ⟨?_, ?_, ?_⟩ <;> simp [uploadShard, hr, ht, hb]

/-- C9 witness: with the all-success preflight environment, a session of two
shards returns `nil` whatever the negotiations do. -/
theorem uploadShard_ret_independent_of_negotiation_witness :
    (uploadShard pfOk "ss" 7 ["h1", "h2"] [0, 1] [[(5, envAckTimeout)]]
        [WatcherObs.ctxDone] (some "submit failed")).ret = none :=
  (uploadShard_ret_independent_of_negotiation pfOk "ss" 7 ["h1", "h2"] [0, 1]
    2 3 rfl rfl rfl [[(5, envAckTimeout)]] [WatcherObs.ctxDone]
    (some "submit failed")).1

/-- C2: the completion watcher skips a tick whose counter query errors;
on observing `completeNum = numShards` it finalizes — invoking `Submit`
exactly once, raising an error event exactly when `Submit` fails — and
terminates; on observing `errorNum > 0` (with counters consistent, i.e.
`completeNum + errorNum ≤ numShards`) it raises one error event, invokes
`Submit` zero times and terminates; on context cancellation it terminates
with no event; and over any observation sequence `Submit` is invoked at most
once and exactly when the run ends in finalization — so finalize and abort
are mutually exclusive and the watcher terminates at most once. -/
theorem watcherRun_finalize_abort_spec (N : Nat) (sres : Option Err) :
    (∀ m rest, watcherRun N sres (.tick (.error m) :: rest) =
      watcherRun N sres rest)
  ∧ (∀ eN rest, watcherRun N sres (.tick (.ok (N, eN)) :: rest) =
      ⟨.finalized, (match sres with | some m => [m] | none => []), 1⟩)
  ∧ (∀ c e rest, c + e ≤ N → 0 < e →
      watcherRun N sres (.tick (.ok (c, e)) :: rest) =
        ⟨.aborted, ["there are some error shards"], 0⟩)
  ∧ (∀ rest, watcherRun N sres (.ctxDone :: rest) = ⟨.cancelled, [], 0⟩)
  ∧ (∀ obs, (watcherRun N sres obs).submits ≤ 1
      ∧ ((watcherRun N sres obs).ended = .finalized
          ↔ (watcherRun N sres obs).submits = 1)) := by
  refine ⟨?_, ?_, ?_, ?_, watcherRun_submits_bound N sres⟩
  · intro m rest; simp [watcherRun]
  · intro eN rest; simp [watcherRun]
  · intro c e rest hle hpos
    have hc : ¬ c = N := by omega
    simp [watcherRun, hc, hpos]
  · intro rest; simp [watcherRun]

/-- C2 witness: a session of 2 shards: a query error is skipped and the
following `(1, 1)` observation aborts with one event and no `Submit` call;
a `(2, 0)` observation finalizes with one `Submit` call; cancellation
terminates silently. -/
theorem watcherRun_finalize_abort_spec_witness :
    watcherRun 2 none
        [WatcherObs.tick (.error "leveldb"), WatcherObs.tick (.ok (1, 1))] =
      watcherRun 2 none [WatcherObs.tick (.ok (1, 1))]
    ∧ watcherRun 2 none [WatcherObs.tick (.ok (1, 1))] =
        ⟨.aborted, ["there are some error shards"], 0⟩
    ∧ watcherRun 2 none [WatcherObs.tick (.ok (2, 0))] = ⟨.finalized, [], 1⟩
    ∧ watcherRun 2 none [WatcherObs.ctxDone] = ⟨.cancelled, [], 0⟩ :=
  ⟨(watcherRun_finalize_abort_spec 2 none).1 "leveldb"
      [WatcherObs.tick (.ok (1, 1))],
   (watcherRun_finalize_abort_spec 2 none).2.2.1 1 1 [] (by decide) (by decide),
   (watcherRun_finalize_abort_spec 2 none).2.1 0 [],
   (watcherRun_finalize_abort_spec 2 none).2.2.2.1 []⟩

/-- C5: an attempt that starts with the session context already done returns
`nil` to the backoff wrapper (so retrying stops: the remaining attempts are
never run) with no effects at all — in particular no session error event is
raised for the shard, and the shard goroutine raises no backoff-timeout
event either: cancellation is never reported as a shard failure. -/
theorem cancelled_attempt_is_silent_success
    (ssId : String) (token : TokenAddr) (shardIndex fresh : Nat)
    (env : AttemptEnv) (h : env.ctxDone = true) :
    attemptStep ssId token shardIndex fresh env = (none, Effects.empty)
  ∧ (∀ rest, retryLoop ssId token shardIndex ((fresh, env) :: rest) =
      (none, Effects.empty))
  ∧ (∀ rest, shardTask ssId token shardIndex ((fresh, env) :: rest) =
      Effects.empty) := by
  have hstep : attemptStep ssId token shardIndex fresh env =
      (none, Effects.empty) := by
    simp [attemptStep, h]
  refine ⟨hstep, ?_, ?_⟩
  · intro rest
    cases rest with
    | nil => simp [retryLoop, hstep]
    | cons b rest2 => simp [retryLoop, hstep]
  · intro rest
    cases rest with
    | nil => simp [shardTask, retryLoop, hstep]
    | cons b rest2 => simp [shardTask, retryLoop, hstep]

/-- C5 witness: at the concrete cancelled environment, the first attempt
ends retrying silently even though a later environment would fail. -/
theorem cancelled_attempt_is_silent_success_witness :
    shardTask "ss" 7 0 [(5, envCancelled), (6, envAckTimeout)] =
      Effects.empty :=
  (cancelled_attempt_is_silent_success "ss" 7 0 5 envCancelled rfl).2.2
    [(6, envAckTimeout)]

/-- C10: when the host provider returns a host whose identifier fails peer
decoding, the attempt hands that decode error back to the backoff wrapper
(a retryable failure: with attempts remaining, the retry loop goes on to the
next attempt, which draws a fresh host) and produces no effects: no session
error event, no registry entry, no host contact — it is neither a soft stop
nor a reported shard error. -/
theorem decode_error_is_retryable
    (ssId : String) (token : TokenAddr) (shardIndex fresh : Nat)
    (env : AttemptEnv) (host : String) (e : Err)
    (hc : env.ctxDone = false) (hh : env.nextHost = .ok host)
    (hd : env.decodePeer = .error e) :
    attemptStep ssId token shardIndex fresh env = (some e, Effects.empty)
  ∧ (∀ a rest, retryLoop ssId token shardIndex ((fresh, env) :: a :: rest) =
      retryLoop ssId token shardIndex (a :: rest)) := by
  have hstep : attemptStep ssId token shardIndex fresh env =
      (some e, Effects.empty) := by
    simp [attemptStep, hc, hh, hd]
  refine ⟨hstep, ?_⟩
  intro a rest
  simp [retryLoop, hstep, Effects.empty_app]

/-- C10 witness: at the concrete decode-failure environment, the attempt
returns the decode error and the loop proceeds to the next attempt. -/
theorem decode_error_is_retryable_witness :
    attemptStep "ss" 7 0 5 envDecodeFail =
      (some "failed to parse peer ID", Effects.empty)
    ∧ retryLoop "ss" 7 0 [(5, envDecodeFail), (6, envAckOk)] =
        retryLoop "ss" 7 0 [(6, envAckOk)] :=
  ⟨(decode_error_is_retryable "ss" 7 0 5 envDecodeFail "not-a-peer-id"
      "failed to parse peer ID" rfl rfl rfl).1,
   (decode_error_is_retryable "ss" 7 0 5 envDecodeFail "not-a-peer-id"
      "failed to parse peer ID" rfl rfl rfl).2 (6, envAckOk) []⟩

/-- An attempt that returns an error to the backoff wrapper raises no
session error event itself: the only event-raising branch (host provider
failure) returns `nil`. -/
theorem attemptStep_fail_no_events (ssId : String) (token : TokenAddr)
    (shardIndex fresh : Nat) (env : AttemptEnv)
    (h : (attemptStep ssId token shardIndex fresh env).1.isSome = true) :
    (attemptStep ssId token shardIndex fresh env).2.events = [] := by
  obtain ⟨cd, nh, dp, st, sr, pfd, ak⟩ := env
  cases cd <;> cases nh <;> cases dp <;> cases st <;> cases sr <;> cases ak <;>
    simp_all [attemptStep, Effects.empty] <;> split_ifs <;>
    simp_all [Effects.empty]

/-- If every attempt the backoff policy permits returns an error, the retry
loop returns an error (backoff exhaustion) and accumulates no session error
events from the attempts themselves. -/
theorem retryLoop_all_fail (ssId : String) (token : TokenAddr)
    (shardIndex : Nat) (attempts : List (Nat × AttemptEnv))
    (hne : attempts ≠ [])
    (hfail : ∀ p ∈ attempts,
      (attemptStep ssId token shardIndex p.1 p.2).1.isSome = true) :
    (retryLoop ssId token shardIndex attempts).1.isSome = true
    ∧ (retryLoop ssId token shardIndex attempts).2.events = [] := by
  induction attempts with
  | nil => exact absurd rfl hne
  | cons a rest ih =>
    obtain ⟨fresh, env⟩ := a
    have ha := hfail (fresh, env) (List.mem_cons_self _ _)
    rcases hstep : attemptStep ssId token shardIndex fresh env with ⟨r, effs⟩
    rw [hstep] at ha
    have hev : effs.events = [] := by
      have := attemptStep_fail_no_events ssId token shardIndex fresh env
        (by rw [hstep]; exact ha)
      rwa [hstep] at this
    cases r with
    | none => simp at ha
    | some e =>
      cases rest with
      | nil => simp [retryLoop, hstep, hev]
      | cons b rest2 =>
        have hih := ih (by simp)
          (fun p hp => hfail p (List.mem_cons_of_mem _ hp))
        simp [retryLoop, hstep, Effects.app, hev, hih.1, hih.2]

/-- C6: when every attempt the backoff policy permits returns a retryable
error (backoff exhaustion), the shard goroutine raises exactly one session
error event, whose message is
`"timeout: failed to setup contract in "` followed by the configured
`MaxElapsedTime` bound; the permitted attempts are the only ones run. -/
theorem backoff_exhaustion_one_timeout_event (ssId : String)
    (token : TokenAddr) (shardIndex : Nat)
    (attempts : List (Nat × AttemptEnv)) (hne : attempts ≠ [])
    (hfail : ∀ p ∈ attempts,
      (attemptStep ssId token shardIndex p.1 p.2).1.isSome = true) :
    (retryLoop ssId token shardIndex attempts).1.isSome = true
  ∧ (shardTask ssId token shardIndex attempts).events = [shardTimeoutMsg]
  ∧ shardTimeoutMsg =
      "timeout: failed to setup contract in " ++ handleShardBoMaxElapsedTime
    := by
  obtain ⟨h1, h2⟩ :=
    retryLoop_all_fail ssId token shardIndex attempts hne hfail
  refine ⟨h1, ?_, rfl⟩
  unfold shardTask
  rcases hr : retryLoop ssId token shardIndex attempts with ⟨r, effs⟩
  rw [hr] at h1 h2
  cases r with
  | none => simp at h1
  | some e => simp [Effects.app, show effs.events = [] from h2]

/-- C6 witness: one permitted attempt that times out awaiting the ack leads
to exactly the single backoff-timeout event. -/
theorem backoff_exhaustion_one_timeout_event_witness :
    (shardTask "ss" 7 0 [(5, envAckTimeout)]).events = [shardTimeoutMsg] :=
  (backoff_exhaustion_one_timeout_event "ss" 7 0 [(5, envAckTimeout)]
    (List.cons_ne_nil _ _) (by decide)).2.1

/-- An attempt registers either no registry entry or exactly the one entry
keyed by the contract id it minted. -/
theorem attemptStep_registered_cases (ssId : String) (token : TokenAddr)
    (shardIndex fresh : Nat) (env : AttemptEnv) :
    (attemptStep ssId token shardIndex fresh env).2.registered = []
    ∨ (attemptStep ssId token shardIndex fresh env).2.registered =
        [newContractID ssId fresh] := by
  obtain ⟨cd, nh, dp, st, sr, pfd, ak⟩ := env
  cases cd <;> cases nh <;> cases dp <;> cases st <;> cases sr <;> cases ak <;>
    simp_all [attemptStep, Effects.empty] <;> split_ifs <;>
    simp_all [Effects.empty]

/-- C3 counterexample: at the concrete environment in which the 30-second
ack wait times out, the attempt terminates (with the `"host timeout"` error)
leaving its contract id registered and never removed — so the registry
entry is not removed on the timeout side, contrary to the claim. -/
theorem registry_entry_leaks_on_timeout :
    (attemptStep "ss" 7 0 5 envAckTimeout).1 = some "host timeout"
  ∧ (attemptStep "ss" 7 0 5 envAckTimeout).2.registered = [("ss", 5)]
  ∧ (attemptStep "ss" 7 0 5 envAckTimeout).2.removed = [] :=
  ⟨rfl, rfl, rfl⟩

/-- C3 amended: each attempt registers at most one entry, keyed by the
contract id it minted, so at most one live entry exists per contract id;
the entry is removed when a result (ack or pushed error) is received on the
channel, but when the 30-second wait times out the attempt terminates
without removing it — orphaned entries remain after timed-out attempts. -/
theorem registry_entry_removed_only_on_receipt
    (ssId : String) (token : TokenAddr) (shardIndex fresh : Nat)
    (env : AttemptEnv) (host pid : String)
    (mp : List (String × TokenAddr)) (bytes : List Nat)
    (hc : env.ctxDone = false) (hh : env.nextHost = .ok host)
    (hd : env.decodePeer = .ok pid) (hs : env.supportTokensResp = .ok mp)
    (htok : mp.any (fun kv => kv.2 == token) = true)
    (hsig : env.signResult = .ok bytes) :
    (∀ e, env.ack = .received e →
      (attemptStep ssId token shardIndex fresh env).2.registered =
        [newContractID ssId fresh]
      ∧ (attemptStep ssId token shardIndex fresh env).2.removed =
        [newContractID ssId fresh])
  ∧ (env.ack = .timeout →
      (attemptStep ssId token shardIndex fresh env).2.registered =
        [newContractID ssId fresh]
      ∧ (attemptStep ssId token shardIndex fresh env).2.removed = [])
  ∧ (∀ (f2 : Nat) (env2 : AttemptEnv),
      (attemptStep ssId token shardIndex f2 env2).2.registered = []
      ∨ (attemptStep ssId token shardIndex f2 env2).2.registered =
          [newContractID ssId f2]) := by
  refine ⟨?_, ?_, fun f2 env2 =>
    attemptStep_registered_cases ssId token shardIndex f2 env2⟩
  · intro e hack
    constructor <;>
      simp [attemptStep, hc, hh, hd, hs, htok, hsig, hack, Effects.empty]
  · intro hack
    constructor <;>
      simp [attemptStep, hc, hh, hd, hs, htok, hsig, hack, Effects.empty]

/-- C3 amended witness: when the ack arrives (concrete environment
`envAckOk`), the registered entry is removed. -/
theorem registry_entry_removed_only_on_receipt_witness :
    (attemptStep "ss" 7 0 5 envAckOk).2.removed = [newContractID "ss" 5] :=
  ((registry_entry_removed_only_on_receipt "ss" 7 0 5 envAckOk
    "16Uiu2HAmHost" "hostPid" [("WBTT", 7)] [1]
    rfl rfl rfl rfl (by decide) rfl).1 none rfl).2

/-- C4 counterexample: at the concrete environment in which the host's
`supporttokens` response lacks the chosen token, retrying stops (the
attempt returns `nil`) but no session error event is raised at all — the
shard goroutine ends with an empty event list, so the watcher never
observes `errorNum > 0` on account of this branch, contrary to the claim. -/
theorem token_unsupported_raises_no_event :
    (attemptStep "ss" 7 0 5 envTokenMissing).1 = none
  ∧ (attemptStep "ss" 7 0 5 envTokenMissing).2.events = []
  ∧ (shardTask "ss" 7 0 [(5, envTokenMissing)]).events = [] :=
  ⟨rfl, rfl, rfl⟩

/-- C4 amended: when the candidate host's `supporttokens` response does not
include the chosen token, the attempt returns `nil` to the backoff wrapper,
so retrying stops without the attempt counting as a backoff failure — but
no session error event is surfaced (unlike the no-host-available soft stop):
the shard neither completes nor errors, and the watcher never observes
`errorNum > 0` from this branch. -/
theorem token_unsupported_soft_stop
    (ssId : String) (token : TokenAddr) (shardIndex fresh : Nat)
    (env : AttemptEnv) (host pid : String) (mp : List (String × TokenAddr))
    (hc : env.ctxDone = false) (hh : env.nextHost = .ok host)
    (hd : env.decodePeer = .ok pid) (hs : env.supportTokensResp = .ok mp)
    (htok : mp.any (fun kv => kv.2 == token) = false) :
    attemptStep ssId token shardIndex fresh env =
      (none, { Effects.empty with hostCalls := 1 })
  ∧ (∀ rest, retryLoop ssId token shardIndex ((fresh, env) :: rest) =
      (none, { Effects.empty with hostCalls := 1 }))
  ∧ (∀ rest,
      (shardTask ssId token shardIndex ((fresh, env) :: rest)).events = [])
    := by
  have hstep : attemptStep ssId token shardIndex fresh env =
      (none, { Effects.empty with hostCalls := 1 }) := by
    simp [attemptStep, hc, hh, hd, hs, htok]
  refine ⟨hstep, ?_, ?_⟩
  · intro rest
    cases rest with
    | nil => simp [retryLoop, hstep]
    | cons b rest2 => simp [retryLoop, hstep]
  · intro rest
    cases rest with
    | nil => simp [shardTask, retryLoop, hstep, Effects.empty]
    | cons b rest2 => simp [shardTask, retryLoop, hstep, Effects.empty]

/-- C4 amended witness: at the concrete token-missing environment, the whole
shard goroutine runs and raises no event. -/
theorem token_unsupported_soft_stop_witness :
    (shardTask "ss" 7 0 [(5, envTokenMissing), (6, envAckOk)]).events = [] :=
  (token_unsupported_soft_stop "ss" 7 0 5 envTokenMissing "16Uiu2HAmHost"
    "hostPid" [("WBTT", 8)] rfl rfl rfl rfl (by decide)).2.2 [(6, envAckOk)]

/-- C7 counterexample: two attempts for the same session that differ only in
their shard index (0 versus 1) register the same contract id `("ss", 5)` —
the shard index is not an input of the minted contract id, contrary to the
claim that the id is derived from both the session id and the shard index. -/
theorem contract_id_ignores_shard_index :
    (attemptStep "ss" 7 0 5 envAckTimeout).2.registered =
      (attemptStep "ss" 7 1 5 envAckTimeout).2.registered
  ∧ (attemptStep "ss" 7 0 5 envAckTimeout).2.registered = [("ss", 5)] :=
  ⟨rfl, rfl⟩

/-- C7 amended: the contract id minted at registration is derived from the
session id and a fresh per-attempt component only (the shard index is not an
input); attempts with distinct fresh components mint distinct ids, so a new
attempt never reuses the contract id of an earlier attempt still present in
the registry, and each attempt registers at most its own id. -/
theorem contract_id_fresh_per_attempt (ssId : String) (f1 f2 : Nat)
    (h : f1 ≠ f2) :
    newContractID ssId f1 ≠ newContractID ssId f2
  ∧ (∀ (token : TokenAddr) (shardIndex : Nat) (env : AttemptEnv),
      (attemptStep ssId token shardIndex f1 env).2.registered = []
      ∨ (attemptStep ssId token shardIndex f1 env).2.registered =
          [newContractID ssId f1]) := by
  refine ⟨?_, fun token shardIndex env =>
    attemptStep_registered_cases ssId token shardIndex f1 env⟩
  simp [newContractID, h]

/-- C7 amended witness: fresh components 5 and 6 give distinct ids. -/
theorem contract_id_fresh_per_attempt_witness :
    newContractID "ss" 5 ≠ newContractID "ss" 6 :=
  (contract_id_fresh_per_attempt "ss" 5 6 (by decide)).1

/-- C8 counterexample: at the concrete environment in which the push fails
and the 30-second wait times out, the per-attempt channel was created with
capacity 0 (unbuffered, not buffered as claimed) and the push-failure
deliverer is left blocked on its send — delivery is neither buffered nor
abandoned, contrary to the claim. -/
theorem push_error_sender_blocks :
    (attemptStep "ss" 7 0 5 envPushFailTimeout).2.cbCaps = [0]
  ∧ (attemptStep "ss" 7 0 5 envPushFailTimeout).2.blockedSenders = 1
  ∧ sendBlocks 0 0 false = true :=
  ⟨rfl, rfl, rfl⟩

/-- C8 amended: delivering a result to a contract id with no registered
channel is a no-op (registry unchanged, no send happens), but the
per-attempt result channel is unbuffered (capacity 0): the push-failure
error sent onto it is consumed only when the 30-second wait receives it,
and when that wait times out first the sending goroutine remains blocked
forever — the deliverer is not protected by buffering or abandonment. -/
theorem delivery_noop_and_unbuffered_send
    (registry : List ContractId) (id : ContractId)
    (hreg : registry.contains id = false)
    (ssId : String) (token : TokenAddr) (shardIndex fresh : Nat)
    (env : AttemptEnv) (host pid : String)
    (mp : List (String × TokenAddr)) (bytes : List Nat) (e : Err)
    (hc : env.ctxDone = false) (hh : env.nextHost = .ok host)
    (hd : env.decodePeer = .ok pid) (hs : env.supportTokensResp = .ok mp)
    (htok : mp.any (fun kv => kv.2 == token) = true)
    (hsig : env.signResult = .ok bytes) (hp : env.pushFailed = some e) :
    deliverIfPresent registry id = (registry, false)
  ∧ (attemptStep ssId token shardIndex fresh env).2.cbCaps = [0]
  ∧ (env.ack = .timeout →
      (attemptStep ssId token shardIndex fresh env).2.blockedSenders = 1)
  ∧ (∀ r, env.ack = .received r →
      (attemptStep ssId token shardIndex fresh env).2.blockedSenders = 0)
  ∧ sendBlocks 0 0 true = false := by
  refine ⟨?_, ?_, ?_, ?_, rfl⟩
  · unfold deliverIfPresent; rw [hreg]; simp
  · cases hack : env.ack with
    | received r => simp [attemptStep, hc, hh, hd, hs, htok, hsig, hack]
    | timeout => simp [attemptStep, hc, hh, hd, hs, htok, hsig, hack]
  · intro hack
    simp [attemptStep, hc, hh, hd, hs, htok, hsig, hack, hp]
  · intro r hack
    simp [attemptStep, hc, hh, hd, hs, htok, hsig, hack, Effects.empty]

/-- C8 amended witness: the empty registry is unchanged by a delivery, and
at the concrete push-failure environment the timed-out attempt leaves one
blocked sender on the capacity-0 channel. -/
theorem delivery_noop_and_unbuffered_send_witness :
    deliverIfPresent [] ("ss", 9) = ([], false)
    ∧ (attemptStep "ss" 7 0 5 envPushFailTimeout).2.blockedSenders = 1 :=
  ⟨(delivery_noop_and_unbuffered_send [] ("ss", 9) rfl "ss" 7 0 5
      envPushFailTimeout "16Uiu2HAmHost" "hostPid" [("WBTT", 7)] [1]
      "connection refused" rfl rfl rfl rfl (by decide) rfl rfl).1,
   (delivery_noop_and_unbuffered_send [] ("ss", 9) rfl "ss" 7 0 5
      envPushFailTimeout "16Uiu2HAmHost" "hostPid" [("WBTT", 7)] [1]
      "connection refused" rfl rfl rfl rfl (by decide) rfl rfl).2.2.1 rfl⟩

end UploadShardSpec
